import Mathlib

/-!
Verification development for the SalesTrendsDashboard repository.

The repository is a pandas/streamlit dashboard with three source files:
`streamlit_dashboard.py` (load_data, generate_insights, main with its filter
cascade, KPIs and calculate_trend) and two pages,
`1_Platform_Intelligence.py` (platform_metrics, return_data) and
`2_Product_Matrix.py` (prod_stats, pareto_data, grid_df).

We shallowly embed the normalized dataframe as a `List Transaction`, one
element per row, with the columns the aggregations read.  Monetary and
quantity columns are embedded as exact rationals (`ℚ`): every claim under
study is an algebraic identity or a control-flow property, none concerns
floating-point rounding.  A pandas float division whose denominator is zero
does not raise; it produces `inf`/`NaN`, a non-numeric result we embed as
`none : Option ℚ` (see `pdDiv`).  Null cells (`NaN`/`NaT`) are embedded as
`none` in `Option`-typed fields; pandas comparisons and `isin` on nulls are
false, and `groupby` drops null keys, which the embedding reproduces.

Timestamps (`Final Order date`) are embedded as minutes `ts : Option ℤ`;
a calendar day is `Int.fdiv ts 1440`, so a row can carry a time of day,
which the date-range filter and the trend engine are sensitive to.
`pd.to_datetime` of a plain `date` picked in the UI is midnight of that
day, i.e. `day * 1440`.
-/

/-- One normalized row, after `load_data`: the raw columns read by the
aggregations plus the derived columns (`Fiscal Year`, `Month`, `Platform`,
`Category`, `Product` are already materialized by `load_data`).  `ts` is the
parsed `Final Order date` in minutes, `none` when unparseable (`NaT`). -/
structure Transaction where
  ts         : Option Int
  fiscalYear : Option String
  month      : Option String
  platform   : Option String
  category   : Option String
  product    : Option String
  transType  : Option String
  dispatch   : Option String
  saleAmt    : ℚ
  saleRetAmt : ℚ
  saleQty    : ℚ
  saleRetQty : ℚ
deriving DecidableEq, Repr

/-- Derived column built by load_data: Net Revenue = Sale (Amt.) - Sale Return (Amt.). -/
def Transaction.netRevenue (t : Transaction) : ℚ := t.saleAmt - t.saleRetAmt

/-- Derived column built by load_data: Net Quantity = Sale (Qty.) - Sale Return (Qty.). -/
def Transaction.netQuantity (t : Transaction) : ℚ := t.saleQty - t.saleRetQty

/-- Column sum: df[c].sum() over a view, for Net Revenue. -/
def sumRev (rows : List Transaction) : ℚ := (rows.map Transaction.netRevenue).sum

/-- Column sum for Net Quantity. -/
def sumQty (rows : List Transaction) : ℚ := (rows.map Transaction.netQuantity).sum

/-- Column sum for the gross column Sale (Amt.). -/
def sumSale (rows : List Transaction) : ℚ := (rows.map Transaction.saleAmt).sum

/-- Column sum for Sale Return (Amt.). -/
def sumRet (rows : List Transaction) : ℚ := (rows.map Transaction.saleRetAmt).sum

/-- Embedding of a pandas float division between aggregates.  Pandas does not
raise on a zero denominator: it yields `inf` or `NaN`, a non-numeric value we
represent as `none`.  A `some` result is an ordinary exact quotient. -/
def pdDiv (a b : ℚ) : Option ℚ := if b = 0 then none else some (a / b)

/-- Insert into a sorted list (helper of `sortBy`). -/
def insertSorted (le : α → α → Bool) (a : α) : List α → List α
  | [] => [a]
  | b :: bs => if le a b then a :: b :: bs else b :: insertSorted le a bs

/-- Executable embedding of Python `sorted` / pandas `sort_values`: a simple
insertion sort by the given comparison.  (Only membership and permutation
facts about sorting are used by the claims, never the tie-break order.) -/
def sortBy (le : α → α → Bool) (l : List α) : List α := l.foldr (insertSorted le) []

/-- The distinct non-null values of a column, in the embedding's encounter
order: `df[c].dropna().unique()`.  (pandas `groupby` additionally sorts the
keys; no claim under study depends on the order of groups.) -/
def keysBy (f : Transaction → Option String) (rows : List Transaction) : List String :=
  (rows.filterMap f).dedup

/-- The rows of one group of `df.groupby(c)`: null keys are dropped by
pandas (`dropna=True` default), so a row belongs to the group `k` exactly
when its key column holds `some k`. -/
def groupRows (f : Transaction → Option String) (k : String) (rows : List Transaction) :
    List Transaction :=
  rows.filter (fun t => decide (f t = some k))

/-- `df.groupby(c)[v].sum()` as an association list keyed by the distinct
non-null keys. -/
def groupSums (f : Transaction → Option String) (v : Transaction → ℚ)
    (rows : List Transaction) : List (String × ℚ) :=
  (keysBy f rows).map (fun k => (k, ((groupRows f k rows).map v).sum))

-- ## Filter Engine (main, lines 288-379)

/-- Fiscal Year filter: `if selected_fy != 'All': filter_df = filter_df[filter_df['Fiscal Year'] == selected_fy]`.
A pandas `==` comparison against a null cell is false, hence the `some`. -/
def filterFY (sel : String) (rows : List Transaction) : List Transaction :=
  if sel = "All" then rows else rows.filter (fun t => decide (t.fiscalYear = some sel))

/-- Month filter, same shape as `filterFY`. -/
def filterMonth (sel : String) (rows : List Transaction) : List Transaction :=
  if sel = "All" then rows else rows.filter (fun t => decide (t.month = some sel))

/-- Platform multiselect: `if 'All' not in selected_platforms and selected_platforms:
filter_df = filter_df[filter_df['Platform'].isin(selected_platforms)]`.
`isin` is false on a null cell. -/
def filterPlatforms (sel : List String) (rows : List Transaction) : List Transaction :=
  if ¬ sel.contains "All" ∧ sel ≠ [] then
    rows.filter (fun t => match t.platform with
      | some p => sel.contains p
      | none => false)
  else rows

/-- Category multiselect, same shape as `filterPlatforms`. -/
def filterCategories (sel : List String) (rows : List Transaction) : List Transaction :=
  if ¬ sel.contains "All" ∧ sel ≠ [] then
    rows.filter (fun t => match t.category with
      | some c => sel.contains c
      | none => false)
  else rows

/-- Product selectbox: `if selected_product != 'All': ...`. -/
def filterProduct (sel : String) (rows : List Transaction) : List Transaction :=
  if sel = "All" then rows else rows.filter (fun t => decide (t.product = some sel))

/-- Transaction Type selectbox filter. -/
def filterTransType (sel : String) (rows : List Transaction) : List Transaction :=
  if sel = "All" then rows else rows.filter (fun t => decide (t.transType = some sel))

/-- Dispatch Status selectbox filter. -/
def filterDispatch (sel : String) (rows : List Transaction) : List Transaction :=
  if sel = "All" then rows else rows.filter (fun t => decide (t.dispatch = some sel))

/-- Custom date range filter (main, lines 375-379):
`filter_df[(filter_df[date_col] >= pd.to_datetime(date_range[0])) & (filter_df[date_col] <= pd.to_datetime(date_range[1]))]`.
`date_range` holds two `datetime.date` values picked at day granularity;
`pd.to_datetime` turns each into midnight of that day, i.e. `d * 1440`
minutes.  The comparison is against the row's full timestamp; a `NaT`
timestamp compares false. -/
def dateRangeFilter (d1 d2 : Int) (rows : List Transaction) : List Transaction :=
  rows.filter (fun t => match t.ts with
    | some ts => decide (d1 * 1440 ≤ ts) && decide (ts ≤ d2 * 1440)
    | none => false)

/-- The calendar day of a timestamp in minutes (floor, matching pandas
`Timestamp.date` and `Timedelta` day arithmetic). -/
def tsDay (ts : Int) : Int := Int.fdiv ts 1440

-- ## Cascading filter options (main, lines 288-359)

/-- Lexicographic strict comparison of character lists — the order Python
uses on strings (by code point). -/
def strLtb : List Char → List Char → Bool
  | [], [] => false
  | [], _ :: _ => true
  | _ :: _, [] => false
  | a :: as, b :: bs => if a = b then strLtb as bs else decide (a < b)

/-- `a ≤ b` on strings, as Python compares them. -/
def strLe (a b : String) : Bool := ! strLtb b.data a.data

/-- Ascending string sort used by the option lists: `sorted(...)`. -/
def sortedAsc (l : List String) : List String := sortBy strLe l

/-- Descending string sort: `sorted(..., reverse=True)`. -/
def sortedDesc (l : List String) : List String := sortBy (fun a b => strLe b a) l

/-- Fiscal Year options (line 290): `['All'] + sorted(df['Fiscal Year'].dropna().unique().tolist(), reverse=True)`,
computed on the full dataframe (it is the first filter). -/
def fiscalYearOptions (df : List Transaction) : List String :=
  "All" :: sortedDesc (keysBy Transaction.fiscalYear df)

/-- Month options (line 297): computed on `filter_df`, i.e. the dataset
already narrowed by the fiscal-year selection. -/
def monthOptions (df : List Transaction) (selFY : String) : List String :=
  "All" :: sortedDesc (keysBy Transaction.month (filterFY selFY df))

/-- Platform options (line 307): computed on `filter_df` narrowed by fiscal
year and month. -/
def platformOptions (df : List Transaction) (selFY selMonth : String) : List String :=
  "All" :: sortedAsc (keysBy Transaction.platform (filterMonth selMonth (filterFY selFY df)))

/-- Category options (line 319): computed on `filter_df` narrowed by fiscal
year, month and platforms. -/
def categoryOptions (df : List Transaction) (selFY selMonth : String)
    (selPlats : List String) : List String :=
  "All" :: sortedAsc (keysBy Transaction.category
    (filterPlatforms selPlats (filterMonth selMonth (filterFY selFY df))))

/-- Product options (lines 332-336): computed on `filter_df` narrowed by
fiscal year, month, platforms and categories, with 'All' prepended in the
selectbox. -/
def productOptions (df : List Transaction) (selFY selMonth : String)
    (selPlats selCats : List String) : List String :=
  "All" :: sortedAsc (keysBy Transaction.product
    (filterCategories selCats (filterPlatforms selPlats
      (filterMonth selMonth (filterFY selFY df)))))

/-- Transaction Type options (line 345): `['All'] + sorted(df['Transaction Type'].dropna().unique().tolist())`
— computed on the FULL dataframe `df`, not on the narrowed `filter_df`. -/
def transTypeOptions (df : List Transaction) : List String :=
  "All" :: sortedAsc (keysBy Transaction.transType df)

/-- Dispatch Status options (line 354): also computed on the FULL
dataframe `df`, not on the narrowed `filter_df`. -/
def dispatchOptions (df : List Transaction) : List String :=
  "All" :: sortedAsc (keysBy Transaction.dispatch df)

-- ## Aggregation Engine

/-- Overall KPI average order value (main, lines 430 and 462-463):
`avg_value = total_revenue / total_orders if total_orders > 0 else 0`,
with `total_revenue = filtered_df['Net Revenue'].sum()` and
`total_orders = len(filtered_df)`. -/
def kpiAOV (rows : List Transaction) : ℚ :=
  if 0 < rows.length then sumRev rows / (rows.length : ℚ) else 0

/-- `Series.idxmax` paired with `Series.max` over an association list of
group sums: the first key attaining the maximal value, `none` on an empty
series (where pandas raises `ValueError`). -/
def maxByValue : List (String × ℚ) → Option (String × ℚ)
  | [] => none
  | (k, v) :: rest =>
    match maxByValue rest with
    | none => some (k, v)
    | some (k2, v2) => if v2 > v then some (k2, v2) else some (k, v)

/-- One generated insight line; the embedding keeps the numbers structured
instead of rendering the formatted rupee strings. -/
inductive Insight where
  | noData
  | avgOrderValue (v : ℚ)
  | topPlatform (name : String) (amount : ℚ)
  | rateOfReturns (pct : ℚ)
  | bestSeller (name : String) (amount : ℚ)
deriving DecidableEq, Repr

/-- Outcome of running a Python function that may raise: either a value or
an uncaught exception with its message. -/
inductive PyResult (α : Type) where
  | ok (val : α)
  | raised (msg : String)
deriving DecidableEq, Repr

/-- `generate_insights(df, filtered_df)` (main file, lines 187-218).  After
`load_data` the `Platform`, `Product` and amount columns always exist (they
are assigned unconditionally), so every branch guarded by a column-presence
check runs.  `groupby('Platform')[...].sum().idxmax()` raises `ValueError`
when the grouped series is empty, i.e. when every row's platform is null —
embedded as `PyResult.raised`.  The best-seller block instead guards
`nlargest(1)` with an emptiness check and is silently skipped. -/
def generateInsights (filtered : List Transaction) : PyResult (List Insight) :=
  if filtered.length = 0 then PyResult.ok [Insight.noData] else
  let totalRevenue := sumRev filtered
  let aov := if 0 < filtered.length then totalRevenue / (filtered.length : ℚ) else 0
  match maxByValue (groupSums Transaction.platform Transaction.netRevenue filtered) with
  | none => PyResult.raised "ValueError: attempt to get argmax of an empty sequence"
  | some (topPlat, topVal) =>
    let totalSales := sumSale filtered
    let totalReturns := sumRet filtered
    let rate := if 0 < totalSales then totalReturns / totalSales * 100 else 0
    let base := [Insight.avgOrderValue aov, Insight.topPlatform topPlat topVal,
      Insight.rateOfReturns rate]
    match maxByValue (groupSums Transaction.product Transaction.netRevenue filtered) with
    | none => PyResult.ok base
    | some (tp, tv) => PyResult.ok (base ++ [Insight.bestSeller tp tv])

/-- Sort order of the per-platform return-rate table:
`sort_values('Return Rate (%)', ascending=True)`; pandas places `NaN`
last. -/
def rateLE (a b : String × Option ℚ) : Bool :=
  match a.2, b.2 with
  | some x, some y => decide (x ≤ y)
  | some _, none => true
  | none, some _ => false
  | none, none => true

/-- `return_data` (Platform Intelligence page, lines 94-100): group by
platform, sum Sale (Amt.) and Sale Return (Amt.), then
`Return Rate (%) = (ret_sum / sale_sum) * 100` with NO zero-guard — a group
whose gross sale sum is zero gets `NaN`/`inf` (`none`), not 0 — then sort
ascending. -/
def returnData (rows : List Transaction) : List (String × Option ℚ) :=
  sortBy rateLE ((keysBy Transaction.platform rows).map (fun k =>
    let g := groupRows Transaction.platform k rows
    (k, (pdDiv (sumRet g) (sumSale g)).map (fun x => x * 100))))

/-- `platform_metrics` (Platform Intelligence page, lines 45-50): per
platform, sum of Net Revenue, sum of Net Quantity, and
`'Final Order date': 'count'` — a pandas count, which counts only NON-NULL
dates, not all records of the group. -/
def platformMetrics (rows : List Transaction) : List (String × ℚ × ℚ × Nat) :=
  (keysBy Transaction.platform rows).map (fun k =>
    let g := groupRows Transaction.platform k rows
    (k, sumRev g, sumQty g, g.countP (fun t => t.ts.isSome)))

/-- The page then sets `platform_metrics['AOV'] = Net Revenue / count` with
no zero-guard: a group whose non-null-date count is 0 gets `inf`/`NaN`. -/
def platformAOV (rows : List Transaction) : List (String × Option ℚ) :=
  (platformMetrics rows).map (fun x => (x.1, pdDiv x.2.1 (x.2.2.2 : ℚ)))

/-- `prod_stats` (Product Matrix page, lines 84-87): group by Product,
sum Net Revenue and Net Quantity, sort by Net Revenue descending. -/
def prodStats (rows : List Transaction) : List (String × ℚ × ℚ) :=
  sortBy (fun a b => decide (b.2.1 ≤ a.2.1))
    ((keysBy Transaction.product rows).map (fun k =>
      let g := groupRows Transaction.product k rows
      (k, sumRev g, sumQty g)))

/-- Running cumulative sum (`Series.cumsum`) with an accumulator. -/
def cumsumFrom (acc : ℚ) : List ℚ → List ℚ
  | [] => []
  | x :: xs => (acc + x) :: cumsumFrom (acc + x) xs

/-- `pareto_data['Cumulative Revenue'] = pareto_data['Net Revenue'].cumsum()`. -/
def cumsum (l : List ℚ) : List ℚ := cumsumFrom 0 l

/-- `pareto_data['Net Revenue'].sum()`: the total of the grouped
(non-null-product) revenues, the divisor of the Pareto percentage. -/
def paretoTotal (rows : List Transaction) : ℚ :=
  ((prodStats rows).map (fun x => x.2.1)).sum

/-- The Cumulative % column over the FULL sorted product set
(Product Matrix page, line 112):
`100 * Cumulative Revenue / pareto_data['Net Revenue'].sum()` — an
unguarded division, `NaN`/`inf` (`none`) in every position when the total
is 0. -/
def paretoPctFull (rows : List Transaction) : List (Option ℚ) :=
  (cumsum ((prodStats rows).map (fun x => x.2.1))).map
    (fun c => pdDiv (100 * c) (paretoTotal rows))

/-- The displayed Cumulative % after `.head(50)` (line 113): the truncation
happens AFTER the cumulative percentages were computed over the full set. -/
def paretoDataPct (rows : List Transaction) : List (Option ℚ) :=
  (paretoPctFull rows).take 50

/-- `grid_df['AOV'] = grid_df['Net Revenue'] / grid_df['Net Quantity']`
(Product Matrix page, lines 150-151): the denominator is the summed NET
QUANTITY of the product, not a record count, and there is no zero-guard. -/
def gridAOV (rows : List Transaction) : List (String × Option ℚ) :=
  (prodStats rows).map (fun x => (x.1, pdDiv x.2.1 x.2.2))

-- ## Trend Engine (main, lines 385-471)

/-- The non-null timestamps of a view (pandas min/max skip `NaT`). -/
def datesOf (rows : List Transaction) : List Int :=
  rows.filterMap Transaction.ts

/-- `current_df[date_column].min()`: `none` when there is no parseable date. -/
def minDate (rows : List Transaction) : Option Int :=
  match datesOf rows with
  | [] => none
  | d :: ds => some (ds.foldl min d)

/-- `current_df[date_column].max()`. -/
def maxDate (rows : List Transaction) : Option Int :=
  match datesOf rows with
  | [] => none
  | d :: ds => some (ds.foldl max d)

/-- Membership in the previous-period window, compared on full timestamps;
`NaT` compares false. -/
def inPrevWindow (pStart pEnd : Int) (t : Transaction) : Bool :=
  match t.ts with
  | some d => decide (pStart ≤ d) && decide (d ≤ pEnd)
  | none => false

/-- `calculate_trend(current_df, date_column)` (main, lines 385-420),
closing over the full dataframe `df`, here the first argument.
`period_length = (current_end - current_start).days` is a floor in days
(`Int.fdiv` on minutes); the previous window is
`[current_start - period_length days, current_start - 1 day]` and is
applied to the FULL dataframe.  Returns the previous period's
(revenue, quantity, order count, AOV), or `none` for an empty view, a
non-positive span, or an empty previous window.  When the view is non-empty
but every date is `NaT`, `min()` is `NaT`; every subsequent comparison is
false (or raises inside the function's `try`), so the function returns the
all-`None` tuple either way — the `none` of the catch-all match arm. -/
def calculateTrend (df current : List Transaction) : Option (ℚ × ℚ × Nat × ℚ) :=
  if current.length = 0 then none else
  match minDate current, maxDate current with
  | some s, some e =>
    let periodLength := Int.fdiv (e - s) 1440
    if periodLength ≤ 0 then none else
    let prevStart := s - periodLength * 1440
    let prevEnd := s - 1440
    let prevDf := df.filter (inPrevWindow prevStart prevEnd)
    if prevDf.length = 0 then none else
    some (sumRev prevDf, sumQty prevDf, prevDf.length,
      if 0 < prevDf.length then sumRev prevDf / (prevDf.length : ℚ) else 0)
  | _, _ => none

/-- Revenue KPI delta (main, lines 430-437):
`if prev_revenue and prev_revenue > 0: ... else delta = None` — the delta is
`None` both when `calculate_trend` returned `None` and when the previous
revenue is not positive. -/
def revenueDelta (df current : List Transaction) : Option ℚ :=
  match calculateTrend df current with
  | none => none
  | some (pr, _, _, _) =>
    if 0 < pr then some ((sumRev current - pr) / pr * 100) else none

/-- Quantity KPI delta (main, lines 441-448). -/
def qtyDelta (df current : List Transaction) : Option ℚ :=
  match calculateTrend df current with
  | none => none
  | some (_, pq, _, _) =>
    if 0 < pq then some ((sumQty current - pq) / pq * 100) else none

/-- Order-count KPI delta (main, lines 452-459). -/
def ordersDelta (df current : List Transaction) : Option ℚ :=
  match calculateTrend df current with
  | none => none
  | some (_, _, po, _) =>
    if 0 < po then some (((current.length : ℚ) - po) / po * 100) else none

/-- AOV KPI delta (main, lines 462-470). -/
def aovDelta (df current : List Transaction) : Option ℚ :=
  match calculateTrend df current with
  | none => none
  | some (_, _, _, pa) =>
    if 0 < pa then some ((kpiAOV current - pa) / pa * 100) else none

-- ## Record Normalizer: fiscal-year derivation (load_data, lines 150-154)

/-- The decimal digit character of `n % 10`. -/
def digitChar (n : Nat) : Char := Char.ofNat (48 + n % 10)

/-- Decimal digits of a natural number, most significant first, computed
with explicit fuel so that the definition is structurally recursive (the
fuel `n + 1` always suffices, see `decDigitsAux_irrel`). -/
def decDigitsAux : Nat → Nat → List Char
  | 0, _ => []
  | fuel + 1, n =>
    if n < 10 then [digitChar n]
    else decDigitsAux fuel (n / 10) ++ [digitChar (n % 10)]

/-- Decimal digits of `n`, most significant first. -/
def decDigits (n : Nat) : List Char := decDigitsAux (n + 1) n

/-- Embedding of Python `str(n)` for a non-negative int. -/
def natStr (n : Nat) : String := String.mk (decDigits n)

/-- Embedding of Python `s[-2:]`: the last two characters (or the whole
string when it is shorter). -/
def lastTwo (s : String) : String := String.mk ((s.data.reverse.take 2).reverse)

/-- The fiscal-year label of a parsed date with year `y` and month `m`
(load_data, lines 151-154):
`f"FY{x.year}-{str(x.year+1)[-2:]}"` when `x.month >= 3`, else
`f"FY{x.year-1}-{str(x.year)[-2:]}"`. -/
def fiscalYearLabel (y m : Nat) : String :=
  if 3 ≤ m then "FY" ++ natStr y ++ "-" ++ lastTwo (natStr (y + 1))
  else "FY" ++ natStr (y - 1) ++ "-" ++ lastTwo (natStr y)

/-- Two-digit zero-padded rendering of `n % 100`-style values (`n < 100`). -/
def pad2 (n : Nat) : String := String.mk [digitChar (n / 10), digitChar (n % 10)]

/-- The label the spec's formula describes: `FY{Y}-{(Y+1) mod 100}` for
month `≥ 3`, `FY{Y-1}-{Y mod 100}` for month `< 3`, with the mod-100 part
rendered as the usual two-digit year suffix. -/
def specFiscalLabel (y m : Nat) : String :=
  if 3 ≤ m then "FY" ++ natStr y ++ "-" ++ pad2 ((y + 1) % 100)
  else "FY" ++ natStr (y - 1) ++ "-" ++ pad2 (y % 100)

-- ## The §4.4 window contract, worded from the spec, for comparison with
-- `calculateTrend`

/-- The previous-period snapshot as §4.4 of the spec words it: the window
`[current_start - span_days, current_start - 1 day]` immediately preceding
the current span, evaluated on the FULL unfiltered dataset restricted to
that window; `none` ("not available") when the window holds no rows. -/
def specPrevPeriod (full : List Transaction) (s spanDays : Int) : Option (ℚ × ℚ × Nat × ℚ) :=
  let w := full.filter (inPrevWindow (s - spanDays * 1440) (s - 1440))
  if w = [] then none
  else some (sumRev w, sumQty w, w.length, sumRev w / (w.length : ℚ))

-- ## Concrete rows used by counterexamples, failing inputs and witnesses

/-- Row builder for concrete inputs (derived string fields default to
null). -/
def mkTx (ts : Option Int) (p c pr : Option String) (sa ra sq rq : ℚ) : Transaction :=
  { ts := ts, fiscalYear := none, month := none, platform := p, category := c,
    product := pr, transType := none, dispatch := none,
    saleAmt := sa, saleRetAmt := ra, saleQty := sq, saleRetQty := rq }

/-- A platform-A row whose gross sale and return amounts are both 0. -/
def exRowZeroSale : Transaction := mkTx (some 0) (some "A") none none 0 0 1 0

/-- A row whose Platform is null (as when the source file has no
`Main Parties` column) but which carries revenue. -/
def exRowNullPlat : Transaction := mkTx (some 0) none none (some "P") 100 0 1 0

/-- A product-P row: revenue 100 from a single record of quantity 2. -/
def exRowQty2 : Transaction := mkTx (some 0) (some "A") none (some "P") 100 0 2 0

/-- A product-P row with zero revenue. -/
def exRowZeroRev : Transaction := mkTx none none none (some "P") 0 0 1 0

/-- A product-P row with revenue 100. -/
def exRowRev100 : Transaction := mkTx none none none (some "P") 100 0 1 0

/-- Previous-period rows for the trend example: days 8 and 9. -/
def exPrevA : Transaction := mkTx (some (8 * 1440)) (some "A") none none 10 0 1 0

def exPrevB : Transaction := mkTx (some (9 * 1440)) (some "A") none none 20 0 2 0

/-- Current-period rows for the trend example: days 10 and 12 (span 2). -/
def exCurA : Transaction := mkTx (some (10 * 1440)) (some "A") none none 30 0 3 0

def exCurB : Transaction := mkTx (some (12 * 1440)) (some "A") none none 40 0 4 0

/-- A transaction timestamped one hour past midnight on day 10. -/
def exRowEndDay : Transaction := mkTx (some (10 * 1440 + 60)) none none none 1 0 1 0

/-- A transaction timestamped 12:05 in the afternoon of day 5. -/
def exRowStartDay : Transaction := mkTx (some (5 * 1440 + 725)) none none none 1 0 1 0

/-- Two rows in different fiscal years with different transaction types. -/
def exRowT1 : Transaction :=
  { mkTx (some 0) (some "X") none none 1 0 1 0 with
    fiscalYear := some "FY2024-25", transType := some "T1" }

def exRowT2 : Transaction :=
  { mkTx (some 0) (some "Y") none none 1 0 1 0 with
    fiscalYear := some "FY2023-24", transType := some "T2" }

/-- A platform-A row with revenue 100. -/
def exRowPlatA : Transaction := mkTx none (some "A") none none 100 0 1 0

/-- A null-platform row with revenue 50. -/
def exRowPlatNull : Transaction := mkTx none none none none 50 0 1 0

-- ## Helper lemmas

theorem mem_insertSorted {le : α → α → Bool} {a x : α} {l : List α} :
    a ∈ insertSorted le x l ↔ a = x ∨ a ∈ l := by
  induction l with
  | nil => simp [insertSorted]
  | cons b bs ih =>
    simp only [insertSorted]
    by_cases h : le x b = true
    · simp [h]
    · simp only [if_neg h, List.mem_cons, ih]
      tauto

theorem sortBy_cons {le : α → α → Bool} {x : α} {xs : List α} :
    sortBy le (x :: xs) = insertSorted le x (sortBy le xs) := rfl

theorem mem_sortBy {le : α → α → Bool} {a : α} {l : List α} :
    a ∈ sortBy le l ↔ a ∈ l := by
  induction l with
  | nil => simp [sortBy]
  | cons x xs ih => simp [sortBy_cons, mem_insertSorted, ih]

theorem filter_sum_disjoint {α : Type} (v : α → ℚ) (p q : α → Bool) (l : List α)
    (hpq : ∀ t, p t = true → q t = false) :
    ((l.filter p).map v).sum + ((l.filter q).map v).sum
      = ((l.filter (fun t => p t || q t)).map v).sum := by
  induction l with
  | nil => simp
  | cons t ts ih =>
    by_cases hp : p t = true
    · have hq : q t = false := hpq t hp
      rw [List.filter_cons_of_pos hp, List.filter_cons_of_neg (by simp [hq]),
        List.filter_cons_of_pos (by simp [hp])]
      simp only [List.map_cons, List.sum_cons]
      rw [add_assoc, ih]
    · by_cases hq : q t = true
      · rw [List.filter_cons_of_neg (by simp [hp]), List.filter_cons_of_pos hq,
          List.filter_cons_of_pos (by simp [hp, hq])]
        simp only [List.map_cons, List.sum_cons]
        rw [← ih]; ring
      · rw [List.filter_cons_of_neg (by simp [hp]), List.filter_cons_of_neg (by simp [hq]),
          List.filter_cons_of_neg (by simp [hp, hq])]
        exact ih

/-- Proof helper: the Bool predicate selecting rows whose key lies in `ks`. -/
def keyIn (f : Transaction → Option String) (ks : List String) (t : Transaction) : Bool :=
  match f t with
  | some x => ks.contains x
  | none => false

theorem keyIn_nil (f : Transaction → Option String) (t : Transaction) :
    keyIn f [] t = false := by
  cases h : f t <;> simp [keyIn, h]

theorem keyIn_cons (f : Transaction → Option String) (k : String) (ks : List String)
    (t : Transaction) :
    keyIn f (k :: ks) t = (decide (f t = some k) || keyIn f ks t) := by
  cases h : f t with
  | none => simp [keyIn, h]
  | some x =>
    by_cases hxk : x = k
    · simp [keyIn, h, hxk, List.contains_cons]
    · simp [keyIn, h, hxk, List.contains_cons]

theorem sum_over_keys (v : Transaction → ℚ) (f : Transaction → Option String)
    (rows : List Transaction) :
    ∀ ks : List String, ks.Nodup →
      ((ks.map (fun k => ((groupRows f k rows).map v).sum)).sum)
        = ((rows.filter (keyIn f ks)).map v).sum := by
  intro ks
  induction ks with
  | nil =>
    intro _
    have h0 : rows.filter (keyIn f []) = [] := by
      rw [List.filter_eq_nil_iff]
      intro a _
      simp [keyIn_nil]
    simp [h0]
  | cons k ks ih =>
    intro hnd
    have hk : k ∉ ks := (List.nodup_cons.mp hnd).1
    have hnd2 : ks.Nodup := (List.nodup_cons.mp hnd).2
    have hdisj : ∀ t, decide (f t = some k) = true → keyIn f ks t = false := by
      intro t ht
      have hf : f t = some k := of_decide_eq_true ht
      simp [keyIn, hf, hk]
    simp only [List.map_cons, List.sum_cons, ih hnd2]
    unfold groupRows
    rw [filter_sum_disjoint v _ _ rows hdisj]
    have hfc : rows.filter (fun t => decide (f t = some k) || keyIn f ks t)
        = rows.filter (keyIn f (k :: ks)) :=
      List.filter_congr (fun t _ => (keyIn_cons f k ks t).symm)
    rw [hfc]

theorem groupSums_total (f : Transaction → Option String) (v : Transaction → ℚ)
    (rows : List Transaction) :
    ((groupSums f v rows).map (fun x => x.2)).sum
      = ((rows.filter (fun t => (f t).isSome)).map v).sum := by
  unfold groupSums
  rw [List.map_map]
  have hcomp : ((fun (x : String × ℚ) => x.2) ∘
      fun k => (k, ((groupRows f k rows).map v).sum))
      = fun k => ((groupRows f k rows).map v).sum := rfl
  rw [hcomp, sum_over_keys v f rows (keysBy f rows) (List.nodup_dedup _)]
  have hfc : rows.filter (keyIn f (keysBy f rows))
      = rows.filter (fun t => (f t).isSome) := by
    apply List.filter_congr
    intro t ht
    cases hf : f t with
    | none => simp [keyIn, hf]
    | some x =>
      have hx : x ∈ keysBy f rows := by
        rw [keysBy, List.mem_dedup, List.mem_filterMap]
        exact ⟨t, ht, hf⟩
      simp [keyIn, hf, hx]
  rw [hfc]

theorem cumsumFrom_getLast (l : List ℚ) :
    ∀ acc : ℚ, l ≠ [] → (cumsumFrom acc l).getLast? = some (acc + l.sum) := by
  induction l with
  | nil => intro acc h; exact absurd rfl h
  | cons x xs ih =>
    intro acc _
    cases xs with
    | nil => simp [cumsumFrom]
    | cons y ys =>
      rw [show cumsumFrom acc (x :: y :: ys) = (acc + x) :: cumsumFrom (acc + x) (y :: ys)
        from rfl]
      rw [show cumsumFrom (acc + x) (y :: ys) = (acc + x + y) :: cumsumFrom (acc + x + y) ys
        from rfl]
      rw [List.getLast?_cons_cons]
      rw [show (acc + x + y) :: cumsumFrom (acc + x + y) ys = cumsumFrom (acc + x) (y :: ys)
        from rfl]
      rw [ih (acc + x) (by simp)]
      simp [List.sum_cons]
      ring

theorem cumsumFrom_length (l : List ℚ) : ∀ acc : ℚ, (cumsumFrom acc l).length = l.length := by
  induction l with
  | nil => intro acc; rfl
  | cons x xs ih => intro acc; simp [cumsumFrom, ih]

theorem minDate_ne_nil {rows : List Transaction} {s : Int} (h : minDate rows = some s) :
    rows.length ≠ 0 := by
  intro hlen
  rw [List.length_eq_zero] at hlen
  subst hlen
  simp [minDate, datesOf] at h

theorem decDigitsAux_irrel :
    ∀ n f1 f2 : Nat, n < f1 → n < f2 → decDigitsAux f1 n = decDigitsAux f2 n := by
  intro n
  induction n using Nat.strong_induction_on with
  | _ n ih =>
    intro f1 f2 h1 h2
    cases f1 with
    | zero => omega
    | succ g1 =>
      cases f2 with
      | zero => omega
      | succ g2 =>
        simp only [decDigitsAux]
        by_cases h10 : n < 10
        · simp [h10]
        · have hlt : n / 10 < n := Nat.div_lt_self (by omega) (by omega)
          rw [if_neg h10, if_neg h10, ih (n / 10) hlt g1 g2 (by omega) (by omega)]

theorem decDigits_eq (n : Nat) :
    decDigits n = if n < 10 then [digitChar n] else decDigits (n / 10) ++ [digitChar (n % 10)] := by
  show decDigitsAux (n + 1) n = _
  simp only [decDigitsAux]
  by_cases h10 : n < 10
  · simp [h10]
  · have hlt : n / 10 < n := Nat.div_lt_self (by omega) (by omega)
    rw [if_neg h10, if_neg h10,
      decDigitsAux_irrel (n / 10) n (n / 10 + 1) (by omega) (by omega)]
    rfl

theorem lastTwo_natStr (n : Nat) (h : 10 ≤ n) : lastTwo (natStr n) = pad2 (n % 100) := by
  by_cases h100 : n < 100
  · have e1 : decDigits n = [digitChar (n / 10), digitChar (n % 10)] := by
      rw [decDigits_eq, if_neg (by omega), decDigits_eq (n / 10),
        if_pos (by omega : n / 10 < 10)]
      rfl
    have hmod : n % 100 = n := Nat.mod_eq_of_lt h100
    simp only [lastTwo, natStr, e1, pad2, hmod]
    rfl
  · have e1 : decDigits n
        = decDigits (n / 100) ++ [digitChar (n / 10 % 10), digitChar (n % 10)] := by
      rw [decDigits_eq, if_neg (by omega), decDigits_eq (n / 10),
        if_neg (by omega : ¬ n / 10 < 10), Nat.div_div_eq_div_mul]
      simp
    have hd : n % 100 / 10 = n / 10 % 10 := by
      have := Nat.mod_mul_right_div_self n 10 10
      simpa using this
    have hm : n % 100 % 10 = n % 10 := Nat.mod_mod_of_dvd n (by omega)
    simp only [lastTwo, natStr, e1, pad2, hd, hm, List.reverse_append]
    simp [List.take_succ_cons]

theorem fiscalYearLabel_eq_spec (y m : Nat) (h : 10 ≤ y) :
    fiscalYearLabel y m = specFiscalLabel y m := by
  unfold fiscalYearLabel specFiscalLabel
  by_cases hm : 3 ≤ m
  · rw [if_pos hm, if_pos hm, lastTwo_natStr (y + 1) (by omega)]
  · rw [if_neg hm, if_neg hm, lastTwo_natStr y h]

theorem mem_prodStats {rows : List Transaction} {x : String × ℚ × ℚ}
    (hx : x ∈ prodStats rows) :
    x.2.1 = sumRev (groupRows Transaction.product x.1 rows)
    ∧ x.2.2 = sumQty (groupRows Transaction.product x.1 rows) := by
  rw [prodStats] at hx
  have hx2 := mem_sortBy.mp hx
  rw [List.mem_map] at hx2
  obtain ⟨k, _, heq⟩ := hx2
  subst heq
  exact ⟨rfl, rfl⟩

theorem mem_platformMetrics {rows : List Transaction} {x : String × ℚ × ℚ × Nat}
    (hx : x ∈ platformMetrics rows) :
    x.2.1 = sumRev (groupRows Transaction.platform x.1 rows)
    ∧ x.2.2.1 = sumQty (groupRows Transaction.platform x.1 rows)
    ∧ x.2.2.2 = (groupRows Transaction.platform x.1 rows).countP (fun t => t.ts.isSome) := by
  rw [platformMetrics, List.mem_map] at hx
  obtain ⟨k, _, heq⟩ := hx
  subst heq
  exact ⟨rfl, rfl, rfl⟩

theorem deltas_none {df current : List Transaction}
    (h : calculateTrend df current = none) :
    revenueDelta df current = none ∧ qtyDelta df current = none
    ∧ ordersDelta df current = none ∧ aovDelta df current = none := by
  simp [revenueDelta, qtyDelta, ordersDelta, aovDelta, h]

theorem gridAOV_eval : gridAOV [exRowQty2] = [("P", some 50)] := by
  have h1 : keysBy Transaction.product [exRowQty2] = ["P"] := by decide
  simp only [gridAOV, prodStats, h1, List.map, sortBy, List.foldr, insertSorted,
    groupRows, List.filter]
  norm_num [pdDiv, sumRev, sumQty, Transaction.netRevenue, Transaction.netQuantity,
    exRowQty2, mkTx]

theorem prodStats_eval_zero : prodStats [exRowZeroRev] = [("P", 0, 1)] := by
  have h1 : keysBy Transaction.product [exRowZeroRev] = ["P"] := by decide
  simp only [prodStats, h1, List.map, sortBy, List.foldr, insertSorted,
    groupRows, List.filter]
  norm_num [sumRev, sumQty, Transaction.netRevenue, Transaction.netQuantity,
    exRowZeroRev, mkTx]

theorem prodStats_eval_hundred : prodStats [exRowRev100] = [("P", 100, 1)] := by
  have h1 : keysBy Transaction.product [exRowRev100] = ["P"] := by decide
  simp only [prodStats, h1, List.map, sortBy, List.foldr, insertSorted,
    groupRows, List.filter]
  norm_num [sumRev, sumQty, Transaction.netRevenue, Transaction.netQuantity,
    exRowRev100, mkTx]

theorem paretoTotal_eval_zero : paretoTotal [exRowZeroRev] = 0 := by
  rw [paretoTotal, prodStats_eval_zero]
  norm_num

theorem paretoTotal_eval_hundred : paretoTotal [exRowRev100] = 100 := by
  rw [paretoTotal, prodStats_eval_hundred]
  norm_num

-- ## Claim theorems

/-- Claim C1 (code bug, evaluated at the failing input): the per-platform
return-rate aggregation (`return_data`, Platform Intelligence page, line 99)
divides the summed return amount by the summed gross sale amount with no
zero-guard.  On a single platform-A row whose gross sale amount is 0, the
group's rate is the non-numeric `NaN` (`none`), not the 0 the claim and the
spec's invariant require, and the division by zero does occur. -/
theorem c1_return_rate_unguarded :
    returnData [exRowZeroSale] = [("A", none)] ∧ (none : Option ℚ) ≠ some 0 := by
  constructor
  · have h1 : keysBy Transaction.platform [exRowZeroSale] = ["A"] := by decide
    simp only [returnData, h1, List.map, sortBy, List.foldr, insertSorted, groupRows,
      List.filter]
    norm_num [pdDiv, sumRet, sumSale, exRowZeroSale, mkTx]
  · simp

/-- Counterexample to claim C2: at a single product-P record with net
revenue 100 and net quantity 2, the Product Matrix grid computes
AOV = 100 / 2 = 50 by dividing by the summed net quantity, while the claim's
formula (net revenue / record count) gives 100 / 1 = 100. -/
theorem c2_cex :
    gridAOV [exRowQty2] = [("P", some 50)]
    ∧ sumRev [exRowQty2] / (([exRowQty2].length : ℕ) : ℚ) = 100
    ∧ some (50 : ℚ) ≠ some 100 := by
  refine ⟨gridAOV_eval, ?_, by norm_num⟩
  norm_num [sumRev, Transaction.netRevenue, exRowQty2, mkTx]

/-- Claim C2 as amended: the overall KPI AOV is net revenue / record count
and 0 on an empty view; the per-platform AOV of the Platform Intelligence
page divides by the count of rows with a non-null date (not the record
count) with no zero-guard; and the per-product grid AOV of the Product
Matrix page divides by the summed net quantity with no zero-guard. -/
theorem c2_aov_amended (rows : List Transaction) :
    (rows = [] → kpiAOV rows = 0)
    ∧ (rows ≠ [] → kpiAOV rows = sumRev rows / (rows.length : ℚ))
    ∧ (∀ k a, (k, a) ∈ platformAOV rows →
        a = pdDiv (sumRev (groupRows Transaction.platform k rows))
          (((groupRows Transaction.platform k rows).countP (fun t => t.ts.isSome) : ℕ) : ℚ))
    ∧ (∀ k a, (k, a) ∈ gridAOV rows →
        a = pdDiv (sumRev (groupRows Transaction.product k rows))
          (sumQty (groupRows Transaction.product k rows))) := by
  refine ⟨?_, ?_, ?_, ?_⟩
  · intro h; subst h; rfl
  · intro h
    rw [kpiAOV, if_pos (List.length_pos.mpr h)]
  · intro k a ha
    rw [platformAOV, List.mem_map] at ha
    obtain ⟨x, hx, heq⟩ := ha
    obtain ⟨h1, _, h3⟩ := mem_platformMetrics hx
    rw [Prod.mk.injEq] at heq
    obtain ⟨hk, ha2⟩ := heq
    subst hk
    subst ha2
    rw [h1, h3]
  · intro k a ha
    rw [gridAOV, List.mem_map] at ha
    obtain ⟨x, hx, heq⟩ := ha
    obtain ⟨h1, h2⟩ := mem_prodStats hx
    rw [Prod.mk.injEq] at heq
    obtain ⟨hk, ha2⟩ := heq
    subst hk
    subst ha2
    rw [h1, h2]

/-- Witness for the amended C2 at concrete inputs. -/
theorem c2_aov_amended_witness :
    kpiAOV [] = 0
    ∧ kpiAOV [exRowQty2] = sumRev [exRowQty2] / (([exRowQty2].length : ℕ) : ℚ)
    ∧ some (50 : ℚ) = pdDiv (sumRev (groupRows Transaction.product "P" [exRowQty2]))
        (sumQty (groupRows Transaction.product "P" [exRowQty2])) := by
  have h := c2_aov_amended [exRowQty2]
  refine ⟨(c2_aov_amended []).1 rfl, h.2.1 (by decide), ?_⟩
  have hm : ("P", some (50 : ℚ)) ∈ gridAOV [exRowQty2] := by
    rw [gridAOV_eval]
    exact List.mem_singleton.mpr rfl
  exact h.2.2.2 "P" (some 50) hm

/-- Claim C3 (code bug, evaluated at the failing input): on a non-empty
filtered view whose every row has a null Platform (as happens whenever the
uploaded file lacks a `Main Parties` column), `generate_insights` reaches
`groupby('Platform')['Net Revenue'].sum().idxmax()` on an empty grouped
series and raises `ValueError` instead of returning a zero/null-filled
result. -/
theorem c3_insights_raise :
    generateInsights [exRowNullPlat]
      = PyResult.raised "ValueError: attempt to get argmax of an empty sequence"
    ∧ [exRowNullPlat].length ≠ 0 := by decide

/-- Counterexample to claim C4's zero-total clause: on a single product-P
row with zero revenue the total revenue is 0 and the cumulative percentage
column holds the non-numeric `NaN` (`none`), not 0. -/
theorem c4_cex :
    paretoTotal [exRowZeroRev] = 0
    ∧ paretoPctFull [exRowZeroRev] = [none]
    ∧ (none : Option ℚ) ≠ some 0 := by
  refine ⟨paretoTotal_eval_zero, ?_, by simp⟩
  rw [paretoPctFull, prodStats_eval_zero]
  simp [cumsum, cumsumFrom, pdDiv, paretoTotal_eval_zero]

/-- Claim C4 as amended: the cumulative percentage is computed over the full
revenue-sorted product set BEFORE the `.head(50)` truncation, and the last
group of the full set has cumulative percentage 100% whenever the total
revenue is nonzero (in particular whenever it is positive); but when the
total revenue is 0 every percentage is the non-numeric `NaN` (`none`), not
the 0 the original claim stated. -/
theorem c4_pareto_amended (rows : List Transaction) :
    (paretoDataPct rows = (paretoPctFull rows).take 50)
    ∧ (prodStats rows ≠ [] → paretoTotal rows ≠ 0 →
        (paretoPctFull rows).getLast? = some (some 100))
    ∧ (paretoTotal rows = 0 →
        paretoPctFull rows = List.replicate (prodStats rows).length none) := by
  refine ⟨rfl, ?_, ?_⟩
  · intro hne htot
    have hrne : (prodStats rows).map (fun x => x.2.1) ≠ [] := by
      simpa using hne
    rw [paretoPctFull, List.getLast?_map, cumsum,
      cumsumFrom_getLast ((prodStats rows).map (fun x => x.2.1)) 0 hrne]
    have hts : ((prodStats rows).map (fun x => x.2.1)).sum = paretoTotal rows := rfl
    rw [Option.map_some', zero_add, hts, pdDiv, if_neg htot]
    rw [mul_div_assoc, div_self htot, mul_one]
  · intro htot
    rw [paretoPctFull]
    have hfun : (fun c => pdDiv (100 * c) (paretoTotal rows))
        = fun _ : ℚ => (none : Option ℚ) := by
      funext c
      rw [pdDiv, if_pos htot]
    rw [hfun, List.map_const', cumsum, cumsumFrom_length, List.length_map]

/-- Witness for the amended C4: one product with revenue 100 reaches 100%
at the last (only) group; one product with revenue 0 yields an all-`NaN`
percentage column. -/
theorem c4_pareto_amended_witness :
    (paretoPctFull [exRowRev100]).getLast? = some (some 100)
    ∧ paretoPctFull [exRowZeroRev] = List.replicate (prodStats [exRowZeroRev]).length none := by
  constructor
  · exact (c4_pareto_amended [exRowRev100]).2.1
      (by rw [prodStats_eval_hundred]; simp)
      (by rw [paretoTotal_eval_hundred]; norm_num)
  · exact (c4_pareto_amended [exRowZeroRev]).2.2 paretoTotal_eval_zero

/-- Claim C5: `calculate_trend` takes the span `[min date, max date]` of the
filtered view, and whenever the span in days is positive it evaluates the
previous period — the window `[current_start - span_days, current_start - 1 day]`
— on the FULL unfiltered dataset (`specPrevPeriod`, worded from §4.4 of the
spec); when the span is non-positive, or the previous window holds no rows,
all four KPI deltas are `None`, not zero. -/
theorem c5_trend_previous_period (df current : List Transaction) (s e : Int)
    (hmin : minDate current = some s) (hmax : maxDate current = some e) :
    (0 < Int.fdiv (e - s) 1440 →
      calculateTrend df current = specPrevPeriod df s (Int.fdiv (e - s) 1440))
    ∧ (Int.fdiv (e - s) 1440 ≤ 0 →
        revenueDelta df current = none ∧ qtyDelta df current = none
        ∧ ordersDelta df current = none ∧ aovDelta df current = none)
    ∧ (df.filter (inPrevWindow (s - Int.fdiv (e - s) 1440 * 1440) (s - 1440)) = [] →
        revenueDelta df current = none ∧ qtyDelta df current = none
        ∧ ordersDelta df current = none ∧ aovDelta df current = none) := by
  have hlen : ¬ current.length = 0 := minDate_ne_nil hmin
  refine ⟨?_, ?_, ?_⟩
  · intro hspan
    simp only [calculateTrend, hmin, hmax, if_neg hlen, specPrevPeriod]
    rw [if_neg (not_le.mpr hspan)]
    by_cases hw : df.filter (inPrevWindow (s - Int.fdiv (e - s) 1440 * 1440) (s - 1440)) = []
    · rw [hw]
      simp
    · have hl : ¬ (df.filter (inPrevWindow (s - Int.fdiv (e - s) 1440 * 1440)
          (s - 1440))).length = 0 := by
        simpa [List.length_eq_zero] using hw
      rw [if_neg hl, if_neg hw, if_pos (Nat.pos_of_ne_zero hl)]
  · intro hspan
    apply deltas_none
    simp only [calculateTrend, hmin, hmax, if_neg hlen]
    rw [if_pos hspan]
  · intro hw
    apply deltas_none
    simp only [calculateTrend, hmin, hmax, if_neg hlen]
    by_cases hspan : Int.fdiv (e - s) 1440 ≤ 0
    · rw [if_pos hspan]
    · rw [if_neg hspan]
      have hl : (df.filter (inPrevWindow (s - Int.fdiv (e - s) 1440 * 1440)
          (s - 1440))).length = 0 := by
        rw [hw]; rfl
      rw [if_pos hl]

/-- Witness for C5: a two-day current span whose previous window holds two
rows of the full dataset; a one-row view (span 0); and a view whose
previous window is empty. -/
theorem c5_trend_witness :
    calculateTrend [exPrevA, exPrevB, exCurA, exCurB] [exCurA, exCurB]
      = specPrevPeriod [exPrevA, exPrevB, exCurA, exCurB] 14400 2
    ∧ revenueDelta [exCurA] [exCurA] = none
    ∧ ordersDelta [exCurA, exCurB] [exCurA, exCurB] = none := by
  refine ⟨?_, ?_, ?_⟩
  · have h := (c5_trend_previous_period [exPrevA, exPrevB, exCurA, exCurB] [exCurA, exCurB]
      14400 17280 (by decide) (by decide)).1 (by decide)
    simpa using h
  · exact ((c5_trend_previous_period [exCurA] [exCurA] 14400 14400
      (by decide) (by decide)).2.1 (by decide)).1
  · exact ((c5_trend_previous_period [exCurA, exCurB] [exCurA, exCurB] 14400 17280
      (by decide) (by decide)).2.2 (by decide)).2.2.1

/-- Counterexample to claim C6: with the selected range [day 0, day 10], a
transaction timestamped one hour past midnight on day 10 — i.e. ON the end
day — is dropped by the filter, although at day granularity its date lies
inside the range. -/
theorem c6_cex :
    dateRangeFilter 0 10 [exRowEndDay] = []
    ∧ exRowEndDay.ts = some (10 * 1440 + 60)
    ∧ tsDay (10 * 1440 + 60) = 10
    ∧ (0 : Int) ≤ 10 ∧ (10 : Int) ≤ 10 := by decide

/-- Claim C6 as amended: the date-range filter keeps a transaction exactly
when its full timestamp lies between midnight of the start day and midnight
of the end day, both inclusive; consequently a transaction on the start day
is kept regardless of its time-of-day whenever the range spans more than one
day, while a transaction on the end day is kept only at exactly midnight. -/
theorem c6_date_range_amended (d1 d2 : Int) (rows : List Transaction) (t : Transaction) :
    (t ∈ dateRangeFilter d1 d2 rows ↔
      t ∈ rows ∧ ∃ ts, t.ts = some ts ∧ d1 * 1440 ≤ ts ∧ ts ≤ d2 * 1440)
    ∧ (∀ ts, t.ts = some ts → tsDay ts = d1 → d1 < d2 → t ∈ rows →
        t ∈ dateRangeFilter d1 d2 rows) := by
  constructor
  · rw [dateRangeFilter, List.mem_filter]
    constructor
    · rintro ⟨hmem, hb⟩
      refine ⟨hmem, ?_⟩
      cases hts : t.ts with
      | none => rw [hts] at hb; simp at hb
      | some ts =>
        rw [hts] at hb
        simp only [Bool.and_eq_true, decide_eq_true_eq] at hb
        exact ⟨ts, rfl, hb.1, hb.2⟩
    · rintro ⟨hmem, ts, hts, h1, h2⟩
      refine ⟨hmem, ?_⟩
      rw [hts]
      simp only [Bool.and_eq_true, decide_eq_true_eq]
      exact ⟨h1, h2⟩
  · intro ts hts hday hlt hmem
    rw [dateRangeFilter, List.mem_filter]
    refine ⟨hmem, ?_⟩
    rw [hts]
    simp only [Bool.and_eq_true, decide_eq_true_eq]
    rw [tsDay] at hday
    have hfd : Int.fdiv ts 1440 = ts / 1440 := Int.fdiv_eq_ediv ts (by norm_num)
    rw [hfd] at hday
    omega

/-- Witness for the amended C6: an afternoon transaction on start day 5 of
the range [5, 9] is kept. -/
theorem c6_date_range_amended_witness :
    exRowStartDay ∈ dateRangeFilter 5 9 [exRowStartDay] :=
  (c6_date_range_amended 5 9 [exRowStartDay] exRowStartDay).2 (5 * 1440 + 725)
    (by decide) (by decide) (by decide) (by decide)

/-- Counterexample to claim C7: two rows in different fiscal years carry
transaction types T1 and T2; after selecting fiscal year FY2024-25 the
narrowed dataset contains only type T1, yet the Transaction Type dropdown —
computed from the FULL dataframe — still offers T2. -/
theorem c7_cex :
    transTypeOptions [exRowT1, exRowT2] = ["All", "T1", "T2"]
    ∧ (filterFY "FY2024-25" [exRowT1, exRowT2]).filterMap Transaction.transType = ["T1"]
    ∧ (["All", "T1", "T2"] : List String) ≠ ["All", "T1"] := by decide

/-- Claim C7 as amended: the Month, Platform, Category and Product option
sets are the distinct values present in the dataset narrowed by all earlier
filters in the fixed order, and the Fiscal Year options (the first filter)
come from the full dataset; but the Transaction Type and Dispatch Status
option sets are computed from the FULL dataset, not from the narrowed
one. -/
theorem c7_options_amended (df : List Transaction) (selFY selMonth : String)
    (selPlats selCats : List String) (o : String) :
    (o ∈ fiscalYearOptions df ↔ o = "All" ∨ ∃ t ∈ df, t.fiscalYear = some o)
    ∧ (o ∈ monthOptions df selFY ↔
        o = "All" ∨ ∃ t ∈ filterFY selFY df, t.month = some o)
    ∧ (o ∈ platformOptions df selFY selMonth ↔
        o = "All" ∨ ∃ t ∈ filterMonth selMonth (filterFY selFY df), t.platform = some o)
    ∧ (o ∈ categoryOptions df selFY selMonth selPlats ↔
        o = "All" ∨ ∃ t ∈ filterPlatforms selPlats (filterMonth selMonth (filterFY selFY df)),
          t.category = some o)
    ∧ (o ∈ productOptions df selFY selMonth selPlats selCats ↔
        o = "All" ∨ ∃ t ∈ filterCategories selCats (filterPlatforms selPlats
          (filterMonth selMonth (filterFY selFY df))), t.product = some o)
    ∧ (o ∈ transTypeOptions df ↔ o = "All" ∨ ∃ t ∈ df, t.transType = some o)
    ∧ (o ∈ dispatchOptions df ↔ o = "All" ∨ ∃ t ∈ df, t.dispatch = some o) := by
  refine ⟨?_, ?_, ?_, ?_, ?_, ?_, ?_⟩ <;>
    simp [fiscalYearOptions, monthOptions, platformOptions, categoryOptions,
      productOptions, transTypeOptions, dispatchOptions, sortedAsc, sortedDesc,
      mem_sortBy, keysBy, List.mem_dedup, List.mem_filterMap]

/-- Claim C8: for every parseable date with year `y` (`y ≥ 10`, so that the
two-digit year suffix is well formed — pandas timestamps in fact always
have 1677 ≤ y ≤ 2262) and month `m`, the derived fiscal-year label is
`FY{y}-{(y+1) mod 100}` when `m ≥ 3` and `FY{y-1}-{y mod 100}` when
`m < 3`, with the two-digit rendering of the mod; the witness checks the
spec's example, 2024-04-01 ↦ "FY2024-25". -/
theorem c8_fiscal_year (y m : Nat) (h : 10 ≤ y) :
    fiscalYearLabel y m = specFiscalLabel y m :=
  fiscalYearLabel_eq_spec y m h

/-- Witness for C8 at the spec's example date 2024-04-01, and at a
February date in the other branch. -/
theorem c8_fiscal_year_witness :
    fiscalYearLabel 2024 4 = "FY2024-25" ∧ fiscalYearLabel 2025 2 = "FY2024-25" :=
  ⟨(c8_fiscal_year 2024 4 (by decide)).trans (by decide),
   (c8_fiscal_year 2025 2 (by decide)).trans (by decide)⟩

/-- Claim C9: a sentinel "All" selectbox selection, an "All"-containing
multiselect selection, or an empty multiselect selection makes the
corresponding filter the identity on the row set — it excludes no row. -/
theorem c9_all_sentinel_noop (rows : List Transaction) :
    filterFY "All" rows = rows ∧ filterMonth "All" rows = rows
    ∧ (∀ sel : List String, sel.contains "All" = true → filterPlatforms sel rows = rows)
    ∧ filterPlatforms [] rows = rows
    ∧ (∀ sel : List String, sel.contains "All" = true → filterCategories sel rows = rows)
    ∧ filterCategories [] rows = rows
    ∧ filterProduct "All" rows = rows
    ∧ filterTransType "All" rows = rows
    ∧ filterDispatch "All" rows = rows := by
  refine ⟨by simp [filterFY], by simp [filterMonth], ?_, by simp [filterPlatforms], ?_,
    by simp [filterCategories], by simp [filterProduct], by simp [filterTransType],
    by simp [filterDispatch]⟩
  · intro sel h
    have hcond : ¬ (¬ sel.contains "All" ∧ sel ≠ []) := fun hc => hc.1 h
    rw [filterPlatforms, if_neg hcond]
  · intro sel h
    have hcond : ¬ (¬ sel.contains "All" ∧ sel ≠ []) := fun hc => hc.1 h
    rw [filterCategories, if_neg hcond]

/-- Witness for C9 at concrete inputs. -/
theorem c9_all_sentinel_noop_witness :
    filterPlatforms ["All"] [exRowPlatA] = [exRowPlatA]
    ∧ filterCategories ["All", "C"] [exRowPlatA] = [exRowPlatA] :=
  ⟨(c9_all_sentinel_noop [exRowPlatA]).2.2.1 ["All"] (by decide),
   (c9_all_sentinel_noop [exRowPlatA]).2.2.2.2.1 ["All", "C"] (by decide)⟩

/-- Claim C10: every grouped aggregation drops rows whose group key is null
— the per-group sums add up exactly to the total over rows with a non-null
key — while view-level totals include every row; at the concrete input with
a null-platform row carrying revenue 50 the per-group revenue total (100)
is strictly below the view total (150). -/
theorem c10_null_keys :
    (∀ (f : Transaction → Option String) (v : Transaction → ℚ) (rows : List Transaction),
      ((groupSums f v rows).map (fun x => x.2)).sum
        = ((rows.filter (fun t => (f t).isSome)).map v).sum)
    ∧ ((groupSums Transaction.platform Transaction.netRevenue
        [exRowPlatA, exRowPlatNull]).map (fun x => x.2)).sum
      < sumRev [exRowPlatA, exRowPlatNull] := by
  constructor
  · exact fun f v rows => groupSums_total f v rows
  · have h1 : ((groupSums Transaction.platform Transaction.netRevenue
        [exRowPlatA, exRowPlatNull]).map (fun x => x.2)).sum = 100 := by
      have hk : keysBy Transaction.platform [exRowPlatA, exRowPlatNull] = ["A"] := by decide
      simp only [groupSums, hk, List.map, groupRows, List.filter]
      norm_num [Transaction.netRevenue, exRowPlatA, exRowPlatNull, mkTx]
    have h2 : sumRev [exRowPlatA, exRowPlatNull] = 150 := by
      norm_num [sumRev, Transaction.netRevenue, exRowPlatA, exRowPlatNull, mkTx]
    rw [h1, h2]
    norm_num
